import Mathlib

/-!
Shallow embedding of the OCPay Node.js SDK's validation and
error-classification layer (src/validators, src/client.ts, src/exceptions,
src/ocpay-service.ts), together with theorems settling the frozen claims
about it.

JavaScript conventions are made explicit:
* optional / possibly-absent values are `Option`;
* JS truthiness of a string value (`""` is falsy) is the `truthy` predicate,
  and `a || b` on strings is `truthyOr`;
* `String.prototype.trim` is `jsTrim` (drop leading and trailing whitespace);
* `String.prototype.startsWith` is `jsStartsWith`;
* a JS `number` is modelled as `ℚ`, with `Number.isInteger` as `Rat.isInt`;
* a function that can `throw` is `Except String` - or `Except OCPayException` -
  valued.
-/

-- Decidable equality for `Except`, used to evaluate validators on concrete
-- requests.
deriving instance DecidableEq for Except

/-- JS truthiness of an optional string: present and non-empty. -/
def truthy : Option String → Bool
  | some s => s != ""
  | none => false

/-- JS `a || b` for an optional string `a`: yields `a`'s value when truthy,
otherwise the fallback `b`. -/
def truthyOr (o : Option String) (fallback : String) : String :=
  match o with
  | some s => if s = "" then fallback else s
  | none => fallback

/-- Model of `String.prototype.trim`: drop leading and trailing whitespace. Defined by
structural recursion on the character list so that it evaluates on concrete
inputs. -/
def jsTrim (s : String) : String :=
  String.mk (((s.toList.dropWhile Char.isWhitespace).reverse.dropWhile
    Char.isWhitespace).reverse)

/-- List-level prefix test (second argument is the candidate prefix of the
first). -/
def startsWithList : List Char → List Char → Bool
  | _, [] => true
  | [], _ :: _ => false
  | c :: cs, d :: ds => c == d && startsWithList cs ds

/-- Model of `String.prototype.startsWith`. -/
def jsStartsWith (s pre : String) : Bool :=
  startsWithList s.toList pre.toList

/-- Test that `needle` occurs as a contiguous subsequence of `haystack`. -/
def hasSubSeq : List Char → List Char → Bool
  | [], needle => needle.isEmpty
  | c :: cs, needle => startsWithList (c :: cs) needle || hasSubSeq cs needle

/-- The string `sub` occurs somewhere inside `s` (used to state that an error
message "mentions" a phrase). -/
def occursIn (s sub : String) : Bool :=
  hasSubSeq s.toList sub.toList

/-! ## Data model (src/types.ts) -/

/-- Embedding of `ProductInfo` from types.ts: title (string), amount (JS number, modelled
as `ℚ`), optional description. -/
structure ProductInfo where
  title : String
  amount : ℚ
  description : Option String
deriving DecidableEq

/-- Embedding of `CreateLinkRequest` from types.ts. `productInfo` is `Option` because
`validateCreateLinkRequest` defensively checks `!request.productInfo`;
`feeMode` is an optional string (the `FeeMode` enum values are the strings
`"NO_FEE"`, `"SPLIT_FEE"`, `"CUSTOMER_FEE"`, and at runtime any string can
flow in). -/
structure CreateLinkRequest where
  productInfo : Option ProductInfo
  feeMode : Option String
  successMessage : Option String
  redirectUrl : Option String
deriving DecidableEq

/-! ## URL parsing model

`isValidUrl` in src/validators calls the platform's WHATWG `URL`
constructor (`new URL(url)`), which is not part of this repository. -/

/-- A character allowed inside a URL scheme after the first. -/
def schemeChar (c : Char) : Bool :=
  c.isAlpha || c.isDigit || c == '+' || c == '-' || c == '.'

/-- Split a character list at the `:` ending a scheme made of scheme
characters; `none` when no such prefix exists. -/
def schemeSplit : List Char → Option (List Char × List Char)
  | [] => none
  | c :: cs =>
    if c = ':' then some ([], cs)
    else if schemeChar c then
      match schemeSplit cs with
      | some (s, r) => some (c :: s, r)
      | none => none
    else none

/-- The special schemes of the URL Standard that require a host (the `file`
scheme, which allows an empty host, is treated with the non-special ones). -/
def specialSchemes : List String := ["http", "https", "ws", "wss", "ftp"]

/-- Code points the URL Standard forbids in a host. -/
def forbiddenHostChar (c : Char) : Bool :=
  c == ' ' || c == '#' || c == '/' || c == '?' || c == '@' || c == '<' ||
  c == '>' || c == '\\' || c == '^' || c == '|' || c == '%' || c == '[' ||
  c == ']' || c == ':'

/-- After the scheme of a special-scheme URL: skip the slashes, then require a
nonempty host with no forbidden code point and an all-digit port. -/
def hostPartOk (rest : List Char) : Bool :=
  let afterSlashes := rest.dropWhile (fun c => c == '/' || c == '\\')
  let hostport := afterSlashes.takeWhile
    (fun c => !(c == '/' || c == '?' || c == '#' || c == '\\'))
  let host := hostport.takeWhile (fun c => !(c == ':'))
  let port := (hostport.dropWhile (fun c => !(c == ':'))).drop 1
  !host.isEmpty && host.all (fun c => !forbiddenHostChar c) &&
    port.all Char.isDigit

/-- Modelled from the spec: the platform WHATWG `URL` constructor used by
`isValidUrl` is a builtin, not code of this repository. `new URL(u)` (with no
base URL) succeeds iff `u` starts with a scheme - an ASCII letter followed by
letters, digits, `+`, `-` or `.`, then `:`, the scheme being lowercased by the
parser - and, for the special schemes that require a host, the remainder
carries a nonempty well-formed host. Simplified to the fragment these claims
exercise: no userinfo, no IPv6 bracket syntax, no percent-decoding, and
non-special schemes accept any remainder (their path is opaque). -/
def urlCanParse (u : String) : Bool :=
  match schemeSplit u.toList with
  | none => false
  | some (s, rest) =>
    match s with
    | [] => false
    | c :: _ =>
      c.isAlpha &&
      (if String.mk (s.map Char.toLower) ∈ specialSchemes then hostPartOk rest
       else true)

/-- The (lowercased) scheme of `u` when the URL constructor accepts `u`. -/
def urlParsedScheme (u : String) : Option String :=
  if urlCanParse u then
    match schemeSplit u.toList with
    | some (s, _) => some (String.mk (s.map Char.toLower))
    | none => none
  else none

/-- Spec-side predicate, following the spec's words for the redirect-URL
rule: "u parses as an absolute URL with scheme http or https". -/
def specAbsoluteHttpUrl (u : String) : Bool :=
  match urlParsedScheme u with
  | some s => s == "http" || s == "https"
  | none => false

/-! ## Validators (src/validators) -/

/-- Embedding of `isValidUrl` from src/validators: `new URL(url)` must not throw, and the
string must start with the literal `http://` or `https://`. -/
def isValidUrl (url : String) : Bool :=
  urlCanParse url && (jsStartsWith url "http://" || jsStartsWith url "https://")

/-- Embedding of `validateProductInfo` from src/validators, check for check:
title falsy-or-blank, title overlong, amount not an integer, amount below
500, amount above 500000, description truthy and overlong. -/
def validateProductInfo (p : ProductInfo) : Except String Unit :=
  if p.title = "" ∨ (jsTrim p.title).length = 0 then
    Except.error "Product title is required"
  else if p.title.length > 200 then
    Except.error "Product title must not exceed 200 characters"
  else if p.amount.isInt = false then
    Except.error "Amount must be a whole number (no decimals)"
  else if p.amount < 500 then
    Except.error "Amount must be at least 500 DZD"
  else if p.amount > 500000 then
    Except.error "Amount must not exceed 500,000 DZD"
  else if truthy p.description ∧ (p.description.getD "").length > 1000 then
    Except.error "Product description must not exceed 1000 characters"
  else Except.ok ()

/-- The three members of the `FeeMode` enum. -/
def validFeeModes : List String := ["NO_FEE", "SPLIT_FEE", "CUSTOMER_FEE"]

/-- Embedding of `validateFeeMode` from src/validators. -/
def validateFeeMode (feeMode : String) : Except String Unit :=
  if feeMode ∈ validFeeModes then Except.ok ()
  else Except.error
    ("Invalid fee mode. Must be one of: " ++ String.intercalate ", " validFeeModes)

/-- The `if (request.feeMode) validateFeeMode(request.feeMode)` statement of
`validateCreateLinkRequest`: the membership check runs only for a truthy
fee mode. -/
def checkFeeModeField (o : Option String) : Except String Unit :=
  if truthy o then validateFeeMode (o.getD "") else Except.ok ()

/-- The success-message check of `validateCreateLinkRequest`. -/
def checkSuccessMessage (o : Option String) : Except String Unit :=
  if truthy o ∧ (o.getD "").length > 500 then
    Except.error "Success message must not exceed 500 characters"
  else Except.ok ()

/-- The redirect-URL check of `validateCreateLinkRequest`: runs only for a
truthy `redirectUrl`. -/
def checkRedirectUrl (o : Option String) : Except String Unit :=
  if truthy o ∧ isValidUrl (o.getD "") = false then
    Except.error "Redirect URL must be a valid HTTP/HTTPS URL"
  else Except.ok ()

/-- Embedding of `validateCreateLinkRequest` from src/validators, in source order:
productInfo required, then `validateProductInfo`, then the fee-mode,
success-message and redirect-URL checks. -/
def validateCreateLinkRequest (r : CreateLinkRequest) : Except String Unit :=
  match r.productInfo with
  | none => Except.error "Product info is required"
  | some p =>
      validateProductInfo p >>= fun _ =>
      checkFeeModeField r.feeMode >>= fun _ =>
      checkSuccessMessage r.successMessage >>= fun _ =>
      checkRedirectUrl r.redirectUrl

/-! ## Error classifier (src/client.ts and src/exceptions) -/

/-- The `meta` object of an API response envelope. -/
structure ResponseMeta where
  requestId : Option String
  timestamp : Option String
deriving DecidableEq

/-- The `ApiResponse` envelope from src/client.ts: success flag, opaque data
payload, optional message, optional metadata. Every field is `Option` because
an error body received off the wire may omit any of them (`success === false`
is a strict comparison in the source). -/
structure ApiResponse where
  success : Option Bool
  data : Option String
  message : Option String
  meta : Option ResponseMeta
deriving DecidableEq

/-- The exception hierarchy of src/exceptions as a tagged variant (the spec's
own suggested representation): `ApiException` and its four specializations. -/
inductive ExceptionKind
  | apiException
  | validationException
  | unauthorizedException
  | notFoundException
  | paymentExpiredException
deriving DecidableEq

/-- An `OCPayException` value: kind tag plus the fields every kind carries
(message, statusCode, requestId, errorData). -/
structure OCPayException where
  kind : ExceptionKind
  message : String
  statusCode : Nat
  requestId : Option String
  errorData : Option ApiResponse
deriving DecidableEq

/-- The slice of an Axios HTTP response that `handleException` reads. -/
structure AxiosResponse where
  status : Nat
  data : Option ApiResponse
deriving DecidableEq

/-- The slice of an `AxiosError` that `handleException` reads: the optional
HTTP response and the transport-level error message. -/
structure AxiosError where
  response : Option AxiosResponse
  message : String
deriving DecidableEq

/-- Embedding of `Client.handleResponse` from src/client.ts: a body with `success: false`
is converted to a plain `ApiException` with status code 0, the body's truthy
message or the fallback, the body's `meta.requestId`, and the body itself as
error data; any other body is returned unchanged. -/
def handleResponse (data : ApiResponse) : Except OCPayException ApiResponse :=
  if data.success = some false then
    Except.error
      { kind := ExceptionKind.apiException
        message := truthyOr data.message "API request failed"
        statusCode := 0
        requestId := data.meta.bind ResponseMeta.requestId
        errorData := some data }
  else Except.ok data

/-- Embedding of `Client.handleException` from src/client.ts: reads the observed status
code (`response?.status || 0`), body (`response?.data`), correlation id
(`data?.meta?.requestId`) and message (`data?.message || error.message`),
then switches on the status code. -/
def handleException (e : AxiosError) : OCPayException :=
  let statusCode := (e.response.map AxiosResponse.status).getD 0
  let data := e.response.bind AxiosResponse.data
  let requestId := (data.bind ApiResponse.meta).bind ResponseMeta.requestId
  let message := truthyOr (data.bind ApiResponse.message) e.message
  if statusCode = 400 then
    { kind := ExceptionKind.validationException, message := message,
      statusCode := statusCode, requestId := requestId, errorData := data }
  else if statusCode = 403 then
    { kind := ExceptionKind.unauthorizedException, message := message,
      statusCode := statusCode, requestId := requestId, errorData := data }
  else if statusCode = 404 then
    { kind := ExceptionKind.notFoundException, message := message,
      statusCode := statusCode, requestId := requestId, errorData := data }
  else if statusCode = 410 then
    { kind := ExceptionKind.paymentExpiredException, message := message,
      statusCode := statusCode, requestId := requestId, errorData := data }
  else
    { kind := ExceptionKind.apiException, message := message,
      statusCode := statusCode, requestId := requestId, errorData := data }

/-- The spec's classification table ("state machine is degenerate"): status
code 400, 403, 404, 410, or anything else / absent (encoded 0). -/
def specStatusKind (status : Nat) : ExceptionKind :=
  if status = 400 then ExceptionKind.validationException
  else if status = 403 then ExceptionKind.unauthorizedException
  else if status = 404 then ExceptionKind.notFoundException
  else if status = 410 then ExceptionKind.paymentExpiredException
  else ExceptionKind.apiException

/-- The (status code, body) pair the spec treats as the classifier's input:
the observed HTTP status, if any, and the structured error body, if any. -/
def observedPair (e : AxiosError) : Option Nat × Option ApiResponse :=
  (e.response.map AxiosResponse.status, e.response.bind AxiosResponse.data)

/-! ## Service layer (src/ocpay-service.ts) -/

def ENDPOINT_CREATE_LINK : String := "/v3/ocpay/createLink"

def ENDPOINT_CHECK_PAYMENT : String := "/v3/ocpay/checkPayment"

/-- The observable first step of `OCPayService.checkPayment`: either the local
plain-`Error` rejection (a bare message, carrying no status code, request id
or kind tag), thrown before any network access, or the GET request that is
issued to the transport. -/
inductive CheckPaymentStep
  | localError (message : String)
  | request (endpoint : String)
deriving DecidableEq

/-- Embedding of `OCPayService.checkPayment` up to its network call: the guard
`!paymentRef || paymentRef.trim().length === 0` throws a plain `Error`;
otherwise the endpoint is built from the reference. -/
def checkPaymentStep (paymentRef : String) : CheckPaymentStep :=
  if paymentRef = "" ∨ (jsTrim paymentRef).length = 0 then
    CheckPaymentStep.localError "Payment reference is required"
  else CheckPaymentStep.request (ENDPOINT_CHECK_PAYMENT ++ "/" ++ paymentRef)

/-- The request body `OCPayService.createLink` sends: the validated request
with `feeMode: request.feeMode || FeeMode.NO_FEE`. -/
def createLinkRequestData (r : CreateLinkRequest) : CreateLinkRequest :=
  { r with feeMode := some (truthyOr r.feeMode "NO_FEE") }

/-- Embedding of `OCPayService.createLink` up to its network call: validate, then build the
transmitted body. -/
def createLinkStep (r : CreateLinkRequest) :
    Except String (String × CreateLinkRequest) :=
  (validateCreateLinkRequest r).map (fun _ => (ENDPOINT_CREATE_LINK, createLinkRequestData r))

/-! ## Spec-side definitions and concrete fixtures -/

/-- Spec-side title length: "the length is taken after trimming a
whitespace-only title to empty". -/
def specTitleLen (t : String) : Nat := if jsTrim t = "" then 0 else t.length

/-- The message `validateFeeMode` builds from the template literal. -/
def invalidFeeModeMessage : String :=
  "Invalid fee mode. Must be one of: NO_FEE, SPLIT_FEE, CUSTOMER_FEE"

/-- A product that passes every `validateProductInfo` check. -/
def goodProduct : ProductInfo := { title := "Book", amount := 1000, description := none }

/-- The spec's 410 scenario body. -/
def body410 : ApiResponse :=
  { success := some false, data := none, message := some "Link expired",
    meta := some { requestId := some "req-1", timestamp := none } }

/-- A failed call observed with status 410 and `body410`. -/
def errScenario410 : AxiosError :=
  { response := some { status := 410, data := some body410 },
    message := "Request failed with status code 410" }

/-- A second failed call with the same (status code, body) pair as
`errScenario410` but a different transport-level message. -/
def errScenario410b : AxiosError :=
  { response := some { status := 410, data := some body410 },
    message := "Request failed with status code 410 (retry)" }

/-- The spec's logical-failure scenario body: HTTP 200 but `success: false`. -/
def body200 : ApiResponse :=
  { success := some false, data := none,
    message := some "insufficient balance", meta := none }

/-- The exception `handleResponse` raises on `body200`. -/
def ex200 : OCPayException :=
  { kind := ExceptionKind.apiException, message := "insufficient balance",
    statusCode := 0, requestId := none, errorData := some body200 }

/-- A network failure with no HTTP response: a timeout. -/
def errTimeout : AxiosError :=
  { response := none, message := "timeout of 30000ms exceeded" }

/-- A network failure with no HTTP response: a connection error. -/
def errNetwork : AxiosError := { response := none, message := "Network Error" }

/-- A request whose `redirectUrl` is present but the empty string. -/
def reqEmptyRedirect : CreateLinkRequest :=
  { productInfo := some goodProduct, feeMode := none, successMessage := none,
    redirectUrl := some "" }

/-- A product with every optional field populated. -/
def premiumProduct : ProductInfo :=
  { title := "Premium Subscription", amount := 5000,
    description := some "Monthly access" }

/-- A fully-populated valid request. -/
def reqFull : CreateLinkRequest :=
  { productInfo := some premiumProduct,
    feeMode := some "NO_FEE", successMessage := some "Thank you!",
    redirectUrl := some "https://yourstore.com/success" }

/-- A request whose `feeMode` is present but falsy (the empty string). -/
def reqFalsyFee : CreateLinkRequest :=
  { productInfo := some goodProduct, feeMode := some "", successMessage := none,
    redirectUrl := none }

/-- A request whose `feeMode` is truthy but not a member of the enum. -/
def reqBadFee : CreateLinkRequest :=
  { productInfo := some goodProduct, feeMode := some "BAD_MODE",
    successMessage := none, redirectUrl := none }

/-! ## Shared lemmas -/

theorem string_length_zero_iff {s : String} : s.length = 0 ↔ s = "" := by
  constructor
  · intro h
    cases s with
    | mk l =>
      cases l with
      | nil => rfl
      | cons c cs => simp [String.length] at h
  · intro h
    subst h
    rfl

theorem one_le_length_of_ne {s : String} (h : s ≠ "") : 1 ≤ s.length := by
  rcases Nat.eq_zero_or_pos s.length with h0 | h1
  · exact absurd (string_length_zero_iff.mp h0) h
  · exact h1

theorem jsTrim_of_empty : jsTrim "" = "" := by decide

theorem truthy_iff {o : Option String} :
    truthy o = true ↔ ∃ s, o = some s ∧ s ≠ "" := by
  cases o with
  | none => simp [truthy]
  | some s => simp [truthy, bne_iff_ne]

theorem except_error_bind {ε α β : Type} {e : ε} {f : α → Except ε β} :
    (Except.error e >>= f) = Except.error e := rfl

theorem except_ok_bind {ε α β : Type} {a : α} {f : α → Except ε β} :
    (Except.ok a >>= f) = f a := rfl

theorem validateProductInfo_ok_iff {p : ProductInfo} :
    validateProductInfo p = Except.ok () ↔
      (¬ (p.title = "" ∨ (jsTrim p.title).length = 0) ∧
       ¬ p.title.length > 200 ∧
       p.amount.isInt = true ∧ 500 ≤ p.amount ∧ p.amount ≤ 500000 ∧
       ¬ (truthy p.description = true ∧ (p.description.getD "").length > 1000)) := by
  unfold validateProductInfo
  split_ifs with h1 h2 h3 h4 h5 h6 <;> simp_all [not_lt]

theorem handleException_kind_eq (e : AxiosError) :
    (handleException e).kind =
      specStatusKind ((e.response.map AxiosResponse.status).getD 0) := by
  simp only [handleException, specStatusKind]
  split_ifs <;> rfl

theorem handleException_fields (e : AxiosError) :
    (handleException e).statusCode = (e.response.map AxiosResponse.status).getD 0 ∧
    (handleException e).message =
      truthyOr ((e.response.bind AxiosResponse.data).bind ApiResponse.message)
        e.message ∧
    (handleException e).requestId =
      ((e.response.bind AxiosResponse.data).bind ApiResponse.meta).bind
        ResponseMeta.requestId ∧
    (handleException e).errorData = e.response.bind AxiosResponse.data := by
  simp only [handleException]
  split_ifs <;> exact ⟨rfl, rfl, rfl, rfl⟩

theorem validateProductInfo_error_mem {p : ProductInfo} {m : String}
    (h : validateProductInfo p = Except.error m) :
    m ∈ ["Product title is required",
         "Product title must not exceed 200 characters",
         "Amount must be a whole number (no decimals)",
         "Amount must be at least 500 DZD",
         "Amount must not exceed 500,000 DZD",
         "Product description must not exceed 1000 characters"] := by
  unfold validateProductInfo at h
  split_ifs at h <;> simp_all

theorem checkFeeModeField_error {o : Option String} {m : String}
    (h : checkFeeModeField o = Except.error m) :
    m = invalidFeeModeMessage ∧ ∃ f, o = some f ∧ f ≠ "" ∧ f ∉ validFeeModes := by
  unfold checkFeeModeField at h
  split_ifs at h with ht
  rcases truthy_iff.mp ht with ⟨f, rfl, hf⟩
  unfold validateFeeMode at h
  split_ifs at h with hmem
  refine ⟨?_, f, rfl, hf, by simpa using hmem⟩
  have hbm := Except.error.inj h
  rw [← hbm]
  decide

theorem checkSuccessMessage_error {o : Option String} {m : String}
    (h : checkSuccessMessage o = Except.error m) :
    m = "Success message must not exceed 500 characters" := by
  unfold checkSuccessMessage at h
  split_ifs at h
  simp_all

theorem checkRedirectUrl_error {o : Option String} {m : String}
    (h : checkRedirectUrl o = Except.error m) :
    m = "Redirect URL must be a valid HTTP/HTTPS URL" := by
  unfold checkRedirectUrl at h
  split_ifs at h
  simp_all

theorem checkRedirectUrl_ok_iff {o : Option String} :
    checkRedirectUrl o = Except.ok () ↔
      (o = none ∨ o = some "" ∨ ∃ u, o = some u ∧ isValidUrl u = true) := by
  cases o with
  | none => simp [checkRedirectUrl, truthy]
  | some u =>
    by_cases hu : u = ""
    · subst hu
      simp [checkRedirectUrl, truthy]
    · by_cases hv : isValidUrl u = true
      · simp [checkRedirectUrl, truthy, bne_iff_ne, hu, hv]
      · simp only [Bool.not_eq_true] at hv
        simp [checkRedirectUrl, truthy, bne_iff_ne, hu, hv]

/-! ## Claim theorems -/

/-- C1: for every `ProductInfo` whose title and description checks pass,
`validateProductInfo` (the validator `validateCreateLinkRequest` runs on the
product) succeeds on the amount checks iff the amount is an integer with
500 <= amount <= 500000; a non-integer amount raises its own rule-specific
message; amount 499 raises an error mentioning "at least 500", amount 500000
passes, and amount 500001 raises an error mentioning "exceed 500,000". -/
theorem validateProductInfo_amount_spec :
    (∀ p : ProductInfo,
        ¬ (p.title = "" ∨ (jsTrim p.title).length = 0) →
        p.title.length ≤ 200 →
        (∀ d, p.description = some d → d.length ≤ 1000) →
        ((validateProductInfo p = Except.ok ()) ↔
          (p.amount.isInt = true ∧ 500 ≤ p.amount ∧ p.amount ≤ 500000)) ∧
        (p.amount.isInt = false →
          validateProductInfo p =
            Except.error "Amount must be a whole number (no decimals)")) ∧
    validateProductInfo ⟨"Book", 499, none⟩ =
      Except.error "Amount must be at least 500 DZD" ∧
    occursIn "Amount must be at least 500 DZD" "at least 500" = true ∧
    validateProductInfo ⟨"Book", 500000, none⟩ = Except.ok () ∧
    validateProductInfo ⟨"Book", 500001, none⟩ =
      Except.error "Amount must not exceed 500,000 DZD" ∧
    occursIn "Amount must not exceed 500,000 DZD" "exceed 500,000" = true ∧
    validateProductInfo ⟨"Book", Rat.divInt 999 2, none⟩ =
      Except.error "Amount must be a whole number (no decimals)" := by
  refine ⟨?_, by decide, by decide, by decide, by decide, by decide, by decide⟩
  intro p hT hL hD
  constructor
  · rw [validateProductInfo_ok_iff]
    constructor
    · rintro ⟨-, -, h3, h4, h5, -⟩
      exact ⟨h3, h4, h5⟩
    · rintro ⟨h3, h4, h5⟩
      refine ⟨hT, by omega, h3, h4, h5, ?_⟩
      rintro ⟨htr, hlen⟩
      rcases truthy_iff.mp htr with ⟨d, hd, -⟩
      have hdl := hD d hd
      rw [hd] at hlen
      simp only [Option.getD_some] at hlen
      omega
  · intro hInt
    unfold validateProductInfo
    rw [if_neg hT, if_neg (by omega : ¬ p.title.length > 200), if_pos hInt]

/-- C1 witness: the amount specification instantiated at a concrete product
with title "Book" and integer amount 600. -/
theorem validateProductInfo_amount_spec_witness :
    ((validateProductInfo ⟨"Book", 600, none⟩ = Except.ok ()) ↔
      ((600 : ℚ).isInt = true ∧ (500 : ℚ) ≤ 600 ∧ (600 : ℚ) ≤ 500000)) ∧
    ((600 : ℚ).isInt = false →
      validateProductInfo ⟨"Book", 600, none⟩ =
        Except.error "Amount must be a whole number (no decimals)") :=
  validateProductInfo_amount_spec.1 ⟨"Book", 600, none⟩ (by decide) (by decide)
    (fun d h => Option.noConfusion h)

/-- C5: for every title string, `validateProductInfo` (with the amount and
description checks satisfied) succeeds on the title checks iff the title's
spec-side length - its length, with a whitespace-only title trimmed to
empty - lies between 1 and 200; a whitespace-only (in particular empty,
the model of a missing, falsy title) title raises the "required" error and
an over-long title raises the distinct over-200-characters error. -/
theorem validateProductInfo_title_spec :
    ∀ p : ProductInfo,
      p.amount.isInt = true → 500 ≤ p.amount → p.amount ≤ 500000 →
      (∀ d, p.description = some d → d.length ≤ 1000) →
      ((validateProductInfo p = Except.ok ()) ↔
        (1 ≤ specTitleLen p.title ∧ specTitleLen p.title ≤ 200)) ∧
      (jsTrim p.title = "" →
        validateProductInfo p = Except.error "Product title is required") ∧
      (jsTrim p.title ≠ "" → p.title.length > 200 →
        validateProductInfo p =
          Except.error "Product title must not exceed 200 characters") := by
  intro p hInt hLo hHi hD
  have hdesc : ¬ (truthy p.description = true ∧
      (p.description.getD "").length > 1000) := by
    rintro ⟨htr, hlen⟩
    rcases truthy_iff.mp htr with ⟨d, hd, -⟩
    have hdl := hD d hd
    rw [hd] at hlen
    simp only [Option.getD_some] at hlen
    omega
  refine ⟨?_, ?_, ?_⟩
  · rw [validateProductInfo_ok_iff]
    constructor
    · rintro ⟨h1, h2, -⟩
      have htr : jsTrim p.title ≠ "" := by
        intro hc
        exact h1 (Or.inr (string_length_zero_iff.mpr hc))
      rw [specTitleLen, if_neg htr]
      have hne : p.title ≠ "" := fun hc => h1 (Or.inl hc)
      exact ⟨one_le_length_of_ne hne, by omega⟩
    · rintro ⟨hone, h200⟩
      have htr : jsTrim p.title ≠ "" := by
        intro hc
        rw [specTitleLen, if_pos hc] at hone
        omega
      rw [specTitleLen, if_neg htr] at hone h200
      refine ⟨?_, by omega, hInt, hLo, hHi, hdesc⟩
      rintro (hc | hc)
      · exact htr (by rw [hc]; decide)
      · exact htr (string_length_zero_iff.mp hc)
  · intro htr
    unfold validateProductInfo
    rw [if_pos (Or.inr (string_length_zero_iff.mpr htr))]
  · intro htr h200
    unfold validateProductInfo
    rw [if_neg ?_, if_pos h200]
    rintro (hc | hc)
    · exact htr (by rw [hc]; decide)
    · exact htr (string_length_zero_iff.mp hc)

/-- C5 witness: the title specification instantiated at a concrete product
with title "Book" and amount 600. -/
theorem validateProductInfo_title_spec_witness :
    ((validateProductInfo ⟨"Book", 600, none⟩ = Except.ok ()) ↔
      (1 ≤ specTitleLen "Book" ∧ specTitleLen "Book" ≤ 200)) ∧
    (jsTrim "Book" = "" →
      validateProductInfo ⟨"Book", 600, none⟩ =
        Except.error "Product title is required") ∧
    (jsTrim "Book" ≠ "" → ("Book" : String).length > 200 →
      validateProductInfo ⟨"Book", 600, none⟩ =
        Except.error "Product title must not exceed 200 characters") :=
  validateProductInfo_title_spec ⟨"Book", 600, none⟩ (by decide) (by decide)
    (by decide) (fun d h => Option.noConfusion h)

/-- C2: `Client.handleException` maps the observed status code of every
failed call to exactly one of the five exception kinds following the spec's
table - 400 to validation, 403 to unauthorized, 404 to not-found, 410 to
payment-expired, anything else or an absent response (encoded 0) to the plain
API kind - and on the 410 scenario with body `body410` it yields the
payment-expired kind with message "Link expired", status code 410 and
correlation id "req-1". -/
theorem handleException_status_classification :
    (∀ e : AxiosError,
        (handleException e).kind =
          specStatusKind ((e.response.map AxiosResponse.status).getD 0)) ∧
    handleException errScenario410 =
      { kind := ExceptionKind.paymentExpiredException, message := "Link expired",
        statusCode := 410, requestId := some "req-1",
        errorData := some body410 } :=
  ⟨handleException_kind_eq, by decide⟩

/-- C3: every body whose `success` field is literally `false` makes
`Client.handleResponse` raise a plain API exception (kind
`ExceptionKind.apiException`, none of the four specialized kinds), whose
message is the body's message when one is carried and the fallback
"API request failed" otherwise; in particular the HTTP-200
"insufficient balance" scenario raises the generic kind despite transport
success. -/
theorem handleResponse_logical_failure :
    (∀ r : ApiResponse, r.success = some false →
      handleResponse r = Except.error
        { kind := ExceptionKind.apiException,
          message := truthyOr r.message "API request failed",
          statusCode := 0,
          requestId := r.meta.bind ResponseMeta.requestId,
          errorData := some r }) ∧
    (∀ r : ApiResponse, ∀ m, r.success = some false → r.message = some m →
      m ≠ "" →
      ∃ ex, handleResponse r = Except.error ex ∧
        ex.kind = ExceptionKind.apiException ∧ ex.message = m) ∧
    (∀ r : ApiResponse, r.success = some false → r.message = none →
      ∃ ex, handleResponse r = Except.error ex ∧
        ex.kind = ExceptionKind.apiException ∧
        ex.message = "API request failed") ∧
    (∃ ex, handleResponse body200 = Except.error ex ∧
      ex.kind = ExceptionKind.apiException ∧
      ex.message = "insufficient balance") := by
  have hbase : ∀ r : ApiResponse, r.success = some false →
      handleResponse r = Except.error
        { kind := ExceptionKind.apiException,
          message := truthyOr r.message "API request failed",
          statusCode := 0,
          requestId := r.meta.bind ResponseMeta.requestId,
          errorData := some r } := by
    intro r h
    unfold handleResponse
    rw [if_pos h]
  refine ⟨hbase, ?_, ?_, ?_⟩
  · intro r m hs hm hne
    refine ⟨_, hbase r hs, rfl, ?_⟩
    show truthyOr r.message "API request failed" = m
    rw [hm]
    simp [truthyOr, hne]
  · intro r hs hm
    refine ⟨_, hbase r hs, rfl, ?_⟩
    show truthyOr r.message "API request failed" = "API request failed"
    rw [hm]
    rfl
  · exact ⟨ex200, by decide, rfl, rfl⟩

/-- C3 witness: the logical-failure conversion instantiated at the concrete
"insufficient balance" body received with HTTP success. -/
theorem handleResponse_logical_failure_witness :
    handleResponse body200 = Except.error
      { kind := ExceptionKind.apiException,
        message := truthyOr body200.message "API request failed",
        statusCode := 0,
        requestId := body200.meta.bind ResponseMeta.requestId,
        errorData := some body200 } :=
  handleResponse_logical_failure.1 body200 rfl

/-- C7: `OCPayService.checkPayment` rejects exactly the empty or
whitespace-only payment references, locally and before any network access,
with the plain-`Error` message "Payment reference is required" (the
`CheckPaymentStep.localError` shape carries only a message - no status code,
request id or exception kind); every other reference proceeds to the GET
request on the checkPayment endpoint. -/
theorem checkPayment_blank_ref_rejected :
    ∀ s : String,
      checkPaymentStep s =
        (if jsTrim s = "" then
          CheckPaymentStep.localError "Payment reference is required"
         else CheckPaymentStep.request (ENDPOINT_CHECK_PAYMENT ++ "/" ++ s)) := by
  intro s
  unfold checkPaymentStep
  by_cases h : jsTrim s = ""
  · rw [if_pos (Or.inr (string_length_zero_iff.mpr h)), if_pos h]
  · rw [if_neg ?_, if_neg h]
    rintro (hc | hc)
    · exact h (by rw [hc]; decide)
    · exact h (string_length_zero_iff.mp hc)

/-- C8: for every request that passes validation, `OCPayService.createLink`
sends `createLinkRequestData r` to the createLink endpoint, and that body is
the request verbatim except for the fee mode: productInfo, successMessage
and redirectUrl are unchanged, an absent feeMode is defaulted to "NO_FEE",
and a present valid feeMode is sent unchanged. -/
theorem createLink_transmits_verbatim :
    ∀ r : CreateLinkRequest, validateCreateLinkRequest r = Except.ok () →
      createLinkStep r =
        Except.ok (ENDPOINT_CREATE_LINK, createLinkRequestData r) ∧
      (createLinkRequestData r).productInfo = r.productInfo ∧
      (createLinkRequestData r).successMessage = r.successMessage ∧
      (createLinkRequestData r).redirectUrl = r.redirectUrl ∧
      (r.feeMode = none → (createLinkRequestData r).feeMode = some "NO_FEE") ∧
      (∀ f, r.feeMode = some f → f ∈ validFeeModes →
        (createLinkRequestData r).feeMode = some f) := by
  intro r hv
  refine ⟨?_, rfl, rfl, rfl, ?_, ?_⟩
  · unfold createLinkStep
    rw [hv]
    rfl
  · intro h
    show some (truthyOr r.feeMode "NO_FEE") = some "NO_FEE"
    rw [h]
    rfl
  · intro f hf hmem
    have hne : f ≠ "" := by
      simp only [validFeeModes, List.mem_cons, List.not_mem_nil, or_false] at hmem
      rcases hmem with h | h | h <;> subst h <;> decide
    show some (truthyOr r.feeMode "NO_FEE") = some f
    rw [hf]
    simp [truthyOr, hne]

/-- C8 witness: the verbatim-transmission property instantiated at the
fully-populated valid request `reqFull`. -/
theorem createLink_transmits_verbatim_witness :
    createLinkStep reqFull =
      Except.ok (ENDPOINT_CREATE_LINK, createLinkRequestData reqFull) ∧
    (createLinkRequestData reqFull).productInfo = reqFull.productInfo ∧
    (createLinkRequestData reqFull).successMessage = reqFull.successMessage ∧
    (createLinkRequestData reqFull).redirectUrl = reqFull.redirectUrl ∧
    (reqFull.feeMode = none →
      (createLinkRequestData reqFull).feeMode = some "NO_FEE") ∧
    (∀ f, reqFull.feeMode = some f → f ∈ validFeeModes →
      (createLinkRequestData reqFull).feeMode = some f) :=
  createLink_transmits_verbatim reqFull (by decide)

/-- C10: a present-but-falsy feeMode (the empty string) is treated exactly
like an absent one - `validateCreateLinkRequest` skips the membership check,
so validation behaves identically to the same request with no feeMode, and
`createLink` sends "NO_FEE" in its place - and the fee-mode membership error
is only ever raised for a truthy feeMode outside the three valid values. -/
theorem falsy_feeMode_treated_as_absent :
    (∀ r : CreateLinkRequest, r.feeMode = some "" →
        validateCreateLinkRequest r =
          validateCreateLinkRequest { r with feeMode := none } ∧
        (createLinkRequestData r).feeMode = some "NO_FEE" ∧
        createLinkRequestData r =
          createLinkRequestData { r with feeMode := none }) ∧
    (∀ r : CreateLinkRequest,
        validateCreateLinkRequest r = Except.error invalidFeeModeMessage →
        ∃ f, r.feeMode = some f ∧ f ≠ "" ∧ f ∉ validFeeModes) := by
  constructor
  · rintro ⟨pi, fm, sm, ru⟩ h
    obtain rfl : fm = some "" := h
    refine ⟨?_, rfl, rfl⟩
    cases pi with
    | none => rfl
    | some p => rfl
  · intro r hv
    unfold validateCreateLinkRequest at hv
    split at hv
    · exact absurd (Except.error.inj hv) (by decide)
    · rename_i p hp
      cases hvp : validateProductInfo p with
      | error m =>
        rw [hvp, except_error_bind] at hv
        have hm := Except.error.inj hv
        have hmem := validateProductInfo_error_mem hvp
        subst hm
        simp only [List.mem_cons, List.not_mem_nil, or_false] at hmem
        rcases hmem with h | h | h | h | h | h <;> exact absurd h (by decide)
      | ok u =>
        cases u
        rw [hvp, except_ok_bind] at hv
        cases hvf : checkFeeModeField r.feeMode with
        | error m =>
          rw [hvf, except_error_bind] at hv
          rcases checkFeeModeField_error hvf with ⟨-, f, hf, hne, hnm⟩
          exact ⟨f, hf, hne, hnm⟩
        | ok u =>
          cases u
          rw [hvf, except_ok_bind] at hv
          cases hvs : checkSuccessMessage r.successMessage with
          | error m =>
            rw [hvs, except_error_bind] at hv
            have hm := Except.error.inj hv
            rw [checkSuccessMessage_error hvs] at hm
            exact absurd hm (by decide)
          | ok u =>
            cases u
            rw [hvs, except_ok_bind] at hv
            cases hvr : checkRedirectUrl r.redirectUrl with
            | error m =>
              rw [hvr] at hv
              have hm := Except.error.inj hv
              rw [checkRedirectUrl_error hvr] at hm
              exact absurd hm (by decide)
            | ok u =>
              cases u
              rw [hvr] at hv
              exact absurd hv (by simp)

/-- C10 witness: the falsy-feeMode behaviour at the concrete request
`reqFalsyFee` (feeMode present but empty), and the membership-error origin at
the concrete request `reqBadFee` (feeMode "BAD_MODE"). -/
theorem falsy_feeMode_treated_as_absent_witness :
    (validateCreateLinkRequest reqFalsyFee =
        validateCreateLinkRequest { reqFalsyFee with feeMode := none } ∧
      (createLinkRequestData reqFalsyFee).feeMode = some "NO_FEE" ∧
      createLinkRequestData reqFalsyFee =
        createLinkRequestData { reqFalsyFee with feeMode := none }) ∧
    (∃ f, reqBadFee.feeMode = some f ∧ f ≠ "" ∧ f ∉ validFeeModes) :=
  ⟨falsy_feeMode_treated_as_absent.1 reqFalsyFee rfl,
   falsy_feeMode_treated_as_absent.2 reqBadFee (by decide)⟩

/-- C4 counterexample: the claim that an exception's status code is 0 if and
only if no HTTP response was received fails on the logical-failure path.
`handleResponse` is only ever invoked on a body delivered by a successful
transport response, so on that path a response was certainly received; yet
the exception it raises (here, for `body200`, received with HTTP 200) always
carries status code 0. -/
theorem statusCode_zero_despite_received_response :
    ¬ (∀ r : ApiResponse, ∀ ex : OCPayException,
        handleResponse r = Except.error ex → ex.statusCode ≠ 0) := by
  intro h
  exact h body200 ex200 (by decide) rfl

/-- C4 amended: every exception carries the remote body's truthy (non-empty)
message when one is present and the transport-level message otherwise, the
correlation id from the body's `meta.requestId`, and the raw body as error
data; on the `handleException` path the status code is the observed one and
(for genuine HTTP statuses, which are at least 100) is 0 iff no response was
received; but on the logical-failure path (`handleResponse`, a `success:
false` body over a successful transport) the status code is always 0 even
though a response was received. -/
theorem exception_payload_fields :
    (∀ e : AxiosError,
        (handleException e).statusCode =
          (e.response.map AxiosResponse.status).getD 0 ∧
        ((∀ resp, e.response = some resp → 100 ≤ resp.status) →
          ((handleException e).statusCode = 0 ↔ e.response = none)) ∧
        (handleException e).message =
          truthyOr ((e.response.bind AxiosResponse.data).bind
            ApiResponse.message) e.message ∧
        (handleException e).requestId =
          ((e.response.bind AxiosResponse.data).bind ApiResponse.meta).bind
            ResponseMeta.requestId ∧
        (handleException e).errorData = e.response.bind AxiosResponse.data) ∧
    (∀ r : ApiResponse, ∀ ex : OCPayException,
        handleResponse r = Except.error ex →
        ex.statusCode = 0 ∧
        ex.message = truthyOr r.message "API request failed" ∧
        ex.requestId = r.meta.bind ResponseMeta.requestId ∧
        ex.errorData = some r) := by
  constructor
  · intro e
    obtain ⟨hs, hm, hr, hd⟩ := handleException_fields e
    refine ⟨hs, ?_, hm, hr, hd⟩
    intro hstat
    rw [hs]
    cases he : e.response with
    | none => simp
    | some resp =>
      have h100 := hstat resp he
      have hval : (Option.map AxiosResponse.status (some resp)).getD 0 =
          resp.status := rfl
      rw [hval]
      constructor
      · intro h0
        exact absurd h0 (by omega)
      · intro hc
        exact Option.noConfusion hc
  · intro r ex h
    unfold handleResponse at h
    split_ifs at h with hs
    have hex := Except.error.inj h
    rw [← hex]
    exact ⟨rfl, rfl, rfl, rfl⟩

/-- C4 witness: the amended field description instantiated at the concrete
410 scenario (response received, status 410, so not 0) and at the concrete
logical-failure body `body200` (response received, status code still 0). -/
theorem exception_payload_fields_witness :
    ((handleException errScenario410).statusCode = 0 ↔
      errScenario410.response = none) ∧
    (ex200.statusCode = 0 ∧
      ex200.message = truthyOr body200.message "API request failed" ∧
      ex200.requestId = body200.meta.bind ResponseMeta.requestId ∧
      ex200.errorData = some body200) :=
  ⟨((exception_payload_fields.1 errScenario410).2.1 (by
      intro resp h
      cases Option.some.inj h
      decide)),
   exception_payload_fields.2 body200 ex200 (by decide)⟩

/-- C6 counterexample: the claim that a present redirectUrl passes validation
iff it parses as an absolute http/https URL fails at the empty string. The
request `reqEmptyRedirect` carries `redirectUrl` present and equal to `""`,
which does not parse as a URL at all (`specAbsoluteHttpUrl "" = false`,
`isValidUrl "" = false`), yet validation succeeds, because the empty string
is falsy and `request.redirectUrl && !isValidUrl(...)` skips the check. -/
theorem empty_redirectUrl_accepted :
    validateCreateLinkRequest reqEmptyRedirect = Except.ok () ∧
    reqEmptyRedirect.redirectUrl = some "" ∧
    specAbsoluteHttpUrl "" = false ∧
    isValidUrl "" = false := by decide

/-- C6 amended: with the rest of the request valid, validation succeeds iff
the redirectUrl is absent, or present but the (falsy) empty string, or
present, nonempty and accepted by `isValidUrl` - that is, the URL constructor
parses it and it literally starts with "http://" or "https://"; a present,
nonempty redirectUrl rejected by `isValidUrl` raises the redirect-URL error
locally, before any network access. -/
theorem redirectUrl_validation_amended :
    ∀ r : CreateLinkRequest, ∀ p, r.productInfo = some p →
      validateProductInfo p = Except.ok () →
      checkFeeModeField r.feeMode = Except.ok () →
      checkSuccessMessage r.successMessage = Except.ok () →
      ((validateCreateLinkRequest r = Except.ok ()) ↔
        (r.redirectUrl = none ∨ r.redirectUrl = some "" ∨
         ∃ u, r.redirectUrl = some u ∧ isValidUrl u = true)) ∧
      (∀ u, r.redirectUrl = some u → u ≠ "" → isValidUrl u = false →
        validateCreateLinkRequest r =
          Except.error "Redirect URL must be a valid HTTP/HTTPS URL") := by
  intro r p hp hvp hvf hvs
  have hred : validateCreateLinkRequest r = checkRedirectUrl r.redirectUrl := by
    unfold validateCreateLinkRequest
    rw [hp]
    show (validateProductInfo p >>= fun _ =>
        checkFeeModeField r.feeMode >>= fun _ =>
        checkSuccessMessage r.successMessage >>= fun _ =>
        checkRedirectUrl r.redirectUrl) = checkRedirectUrl r.redirectUrl
    rw [hvp, except_ok_bind, hvf, except_ok_bind, hvs, except_ok_bind]
  constructor
  · rw [hred]
    exact checkRedirectUrl_ok_iff
  · intro u hu hne hinv
    rw [hred, hu]
    unfold checkRedirectUrl
    rw [if_pos]
    constructor
    · simp [truthy, bne_iff_ne, hne]
    · simpa using hinv

/-- C6 witness: the amended redirect-URL rule instantiated at `reqFull`,
whose other checks all pass and whose redirectUrl is a genuine https URL. -/
theorem redirectUrl_validation_amended_witness :
    ((validateCreateLinkRequest reqFull = Except.ok ()) ↔
      (reqFull.redirectUrl = none ∨ reqFull.redirectUrl = some "" ∨
       ∃ u, reqFull.redirectUrl = some u ∧ isValidUrl u = true)) ∧
    (∀ u, reqFull.redirectUrl = some u → u ≠ "" → isValidUrl u = false →
      validateCreateLinkRequest reqFull =
        Except.error "Redirect URL must be a valid HTTP/HTTPS URL") :=
  redirectUrl_validation_amended reqFull premiumProduct rfl (by decide)
    (by decide) (by decide)

/-- C9 counterexample: classifying the same (status code, body) pair does not
always yield an identical message. The two network failures `errTimeout` and
`errNetwork` observe the same pair - no status code, no body - yet their
classifications differ in message (each falls back to its own
transport-level message), even though kind and status code agree. -/
theorem classifier_message_not_pair_determined :
    observedPair errTimeout = observedPair errNetwork ∧
    (handleException errTimeout).kind = (handleException errNetwork).kind ∧
    (handleException errTimeout).statusCode =
      (handleException errNetwork).statusCode ∧
    (handleException errTimeout).message ≠
      (handleException errNetwork).message := by decide

/-- C9 amended: the classifier is a pure function of the failed call, and the
observed (status code, body) pair determines the kind, status code,
correlation id and error data of the exception; the message is additionally
determined by the pair whenever the body carries a truthy (non-empty)
message, but otherwise falls back to the transport error's own message,
which is not part of the pair. -/
theorem classifier_pair_determinism :
    ∀ e1 e2 : AxiosError, observedPair e1 = observedPair e2 →
      (handleException e1).kind = (handleException e2).kind ∧
      (handleException e1).statusCode = (handleException e2).statusCode ∧
      (handleException e1).requestId = (handleException e2).requestId ∧
      (handleException e1).errorData = (handleException e2).errorData ∧
      (∀ m, (e1.response.bind AxiosResponse.data).bind ApiResponse.message =
          some m → m ≠ "" →
        (handleException e1).message = (handleException e2).message) := by
  intro e1 e2 h
  have hs : e1.response.map AxiosResponse.status =
      e2.response.map AxiosResponse.status := congrArg Prod.fst h
  have hd : e1.response.bind AxiosResponse.data =
      e2.response.bind AxiosResponse.data := congrArg Prod.snd h
  obtain ⟨hs1, hm1, hr1, hd1⟩ := handleException_fields e1
  obtain ⟨hs2, hm2, hr2, hd2⟩ := handleException_fields e2
  refine ⟨?_, ?_, ?_, ?_, ?_⟩
  · rw [handleException_kind_eq e1, handleException_kind_eq e2, hs]
  · rw [hs1, hs2, hs]
  · rw [hr1, hr2, hd]
  · rw [hd1, hd2, hd]
  · intro m hm hne
    rw [hm1, hm2, ← hd, hm]
    simp [truthyOr, hne]

/-- C9 witness: the amended determinism instantiated at the two concrete 410
failures `errScenario410` and `errScenario410b`, which share the pair
(status 410, `body410`) but differ in transport message; since the body
carries the truthy message "Link expired", even the messages agree. -/
theorem classifier_pair_determinism_witness :
    ((handleException errScenario410).kind =
        (handleException errScenario410b).kind ∧
      (handleException errScenario410).statusCode =
        (handleException errScenario410b).statusCode ∧
      (handleException errScenario410).requestId =
        (handleException errScenario410b).requestId ∧
      (handleException errScenario410).errorData =
        (handleException errScenario410b).errorData ∧
      (∀ m, (errScenario410.response.bind AxiosResponse.data).bind
          ApiResponse.message = some m → m ≠ "" →
        (handleException errScenario410).message =
          (handleException errScenario410b).message)) :=
  classifier_pair_determinism errScenario410 errScenario410b rfl
